import Mathlib

/-!
Verification of the CAAI flight-hours classification and aggregation engine
(`src/caai_rules.py`, `src/caai_form_filler.py`, `src/caai_analyzer.py`).

Strings are modelled as lists of characters (`Str`), decimal-hour fields as
rationals, and the two aggregation passes as explicit folds over the input
flight list, mirroring the Python loops statement by statement.
-/

set_option maxHeartbeats 1000000

abbrev Str := List Char

/-- Python whitespace test used by `str.strip` / `str.split`. -/
def isWs (c : Char) : Bool :=
  c == ' ' || c == '\t' || c == '\n' || c == '\r' || c == '\x0b' || c == '\x0c'

/-- Python `str.upper()` (ASCII behaviour). -/
def pyUpper (s : Str) : Str := s.map Char.toUpper

/-- Python `str.lower()` (ASCII behaviour). -/
def pyLower (s : Str) : Str := s.map Char.toLower

/-- Python `str.strip()`. -/
def pyStrip (s : Str) : Str :=
  ((s.dropWhile isWs).reverse.dropWhile isWs).reverse

/-- First whitespace-delimited token of a string; `[]` when there is none.
`s.split()` returns a nonempty list exactly when this token is nonempty,
and its first element is this token. -/
def firstTok (s : Str) : Str :=
  (s.dropWhile isWs).takeWhile (fun c => !isWs c)

/-- Does `needle` occur at the very start of `hay`? -/
def matchesAt : Str → Str → Bool
  | _, [] => true
  | [], _ :: _ => false
  | a :: as, b :: bs => a == b && matchesAt as bs

/-- Python substring test `needle in hay`. -/
def strContains : Str → Str → Bool
  | [], needle => needle.isEmpty
  | a :: rest, needle => matchesAt (a :: rest) needle || strContains rest needle

/-- `hay` has `needle` as a contiguous substring (propositional form). -/
def containsSub (hay needle : Str) : Prop :=
  ∃ pre post, hay = pre ++ needle ++ post

theorem matchesAt_iff (hay needle : Str) :
    matchesAt hay needle = true ↔ ∃ post, hay = needle ++ post := by
  induction needle generalizing hay with
  | nil => simp [matchesAt]
  | cons b bs ih =>
    cases hay with
    | nil => simp [matchesAt]
    | cons a as =>
      simp only [matchesAt, Bool.and_eq_true, beq_iff_eq, ih]
      constructor
      · rintro ⟨rfl, post, rfl⟩
        exact ⟨post, rfl⟩
      · rintro ⟨post, h⟩
        cases h
        exact ⟨rfl, post, rfl⟩

theorem strContains_iff (hay needle : Str) :
    strContains hay needle = true ↔ containsSub hay needle := by
  induction hay with
  | nil =>
    simp only [strContains, containsSub, List.isEmpty_iff]
    constructor
    · rintro rfl
      exact ⟨[], [], rfl⟩
    · rintro ⟨pre, post, h⟩
      exact (List.append_eq_nil.mp (List.append_eq_nil.mp h.symm).1).2
  | cons a rest ih =>
    simp only [strContains, Bool.or_eq_true, matchesAt_iff, ih, containsSub]
    constructor
    · rintro (⟨post, h⟩ | ⟨pre, post, h⟩)
      · exact ⟨[], post, by simp [h]⟩
      · exact ⟨a :: pre, post, by simp [h]⟩
    · rintro ⟨pre, post, h⟩
      cases pre with
      | nil => exact Or.inl ⟨post, by simpa using h⟩
      | cons p ps =>
        simp only [List.cons_append, List.cons.injEq] at h
        exact Or.inr ⟨ps, post, h.2⟩

/-! ## `src/caai_rules.py` -/

/-- Known multi-engine aircraft types (`MULTI_ENGINE_TYPES`). -/
def MULTI_ENGINE_TYPES : List Str :=
  ["A319".toList, "A320".toList, "H25B".toList, "PA44".toList, "BE76".toList]

/-- `is_simulator(aircraft_type, registration)` from `caai_rules.py`:
`'SIM' in atype or 'FTD' in atype or 'FFS' in atype or 'FRASCA' in reg or
'FLIGHT SAFETY' in reg or 'CAE' in reg or (bool(parts) and parts[0] == 'ATP')`
with `atype = aircraft_type.upper()`, `reg = registration.upper()`,
`parts = reg.split()`. -/
def is_simulator (aircraft_type registration : Str) : Bool :=
  let atype := pyUpper aircraft_type
  let reg := pyUpper registration
  strContains atype "SIM".toList || strContains atype "FTD".toList ||
    strContains atype "FFS".toList || strContains reg "FRASCA".toList ||
    strContains reg "FLIGHT SAFETY".toList || strContains reg "CAE".toList ||
    decide (firstTok reg = "ATP".toList)

/-- `get_caai_category(aircraft_type)` from `caai_rules.py`. -/
def get_caai_category (aircraft_type : Str) : Str :=
  let atype := pyUpper aircraft_type
  if strContains atype "A319".toList || strContains atype "A320".toList then "F".toList
  else if strContains atype "H25B".toList then "F".toList
  else if strContains atype "PA44".toList || strContains atype "BE76".toList then "E".toList
  else "C".toList

/-- `is_single_engine(aircraft_type)` from `caai_rules.py`:
`atype not in MULTI_ENGINE_TYPES and 'SIM' not in atype`. -/
def is_single_engine (aircraft_type : Str) : Bool :=
  let atype := pyUpper aircraft_type
  !(decide (atype ∈ MULTI_ENGINE_TYPES)) && !(strContains atype "SIM".toList)

/-- `normalize_type(aircraft_type)` from `caai_rules.py`:
`TYPE_NORMALIZATION.get(aircraft_type.upper().strip(), ...)`. -/
def normalize_type (aircraft_type : Str) : Str :=
  let atype := pyStrip (pyUpper aircraft_type)
  if atype = "C172R".toList then "C172".toList
  else if atype = "C172K".toList then "C172".toList
  else if atype = "P28A-161".toList then "PA28".toList
  else if atype = "P28A-181".toList then "PA28".toList
  else atype

/-! ## Flight records

One row of the normalized logbook, as read by `read_logbook` in
`caai_form_filler.py` / the reading loop in `caai_analyzer.py` (only the
fields the classification/aggregation core consumes). -/

structure Flight where
  aircraft_type : Str := []
  reg : Str := []
  total : ℚ := 0
  pic : ℚ := 0
  sic : ℚ := 0
  night : ℚ := 0
  xc : ℚ := 0
  actual_inst : ℚ := 0
  sim_inst : ℚ := 0
  dual_recv : ℚ := 0
  dual_given : ℚ := 0
  solo : ℚ := 0
  day_ldg : ℤ := 0
  night_ldg : ℤ := 0
  instructor : Str := []
  remarks : Str := []
  distance : ℚ := 0
  deriving DecidableEq

/-- The safety-pilot remark marker (`'safety pilot' in f['remarks'].lower()`). -/
def safetyMarker : Str := "safety pilot".toList

/-- Cross-country flag from `caai_form_filler.py` line 167 /
`caai_analyzer.py` line 150: `f['xc'] > 0 or f['distance'] > 27`. -/
def flight_is_xc (f : Flight) : Bool :=
  decide (f.xc > 0) || decide (f.distance > 27)

/-- The roles a non-simulator flight can be assigned. -/
inductive Role
  | pic
  | sic
  | student
  | safety
  deriving DecidableEq

/-- `has_instructor` (`caai_form_filler.py` line 163 / `caai_analyzer.py`
line 145): `bool(f['instructor']) or f['dual_recv'] > 0`. -/
def hasInstructorB (f : Flight) : Bool :=
  !f.instructor.isEmpty || decide (f.dual_recv > 0)

/-- The role decision chain of `categorize_flights` (`caai_form_filler.py`
lines 163-166 and 194-269), extracted as a pure function: the chain of
`if has_instructor / elif is_safety and single_engine /
elif is_sic_field and not single_engine / elif is_sic_field and single_engine /
elif is_solo_flight / else`, where the SIC-on-single-engine, solo and default
branches all credit PIC. -/
def classify_role (f : Flight) : Role :=
  if hasInstructorB f then Role.student
  else if strContains (pyLower f.remarks) safetyMarker &&
          is_single_engine f.aircraft_type then Role.safety
  else if (decide (f.sic > 0) && !hasInstructorB f) &&
          !is_single_engine f.aircraft_type then Role.sic
  else if (decide (f.sic > 0) && !hasInstructorB f) &&
          is_single_engine f.aircraft_type then Role.pic
  else if decide (f.solo > 0) then Role.pic
  else Role.pic

/-! ## Association lists with a default value

Model of Python's insertion-ordered `defaultdict`: missing keys read as the
default, and a first write appends the key at the end (first-seen order). -/

/-- Read a key, falling back to the default `d`. -/
def lookupD (d : α) : List (Str × α) → Str → α
  | [], _ => d
  | p :: m, k => if p.1 = k then p.2 else lookupD d m k

/-- Apply `g` to the entry at `k`, appending `(k, g d)` when `k` is new. -/
def updateD (d : α) : List (Str × α) → Str → (α → α) → List (Str × α)
  | [], k, g => [(k, g d)]
  | p :: m, k, g => if p.1 = k then (p.1, g p.2) :: m else p :: updateD d m k g

theorem lookupD_updateD (d : α) (m : List (Str × α)) (key k : Str) (g : α → α) :
    lookupD d (updateD d m key g) k =
      if k = key then g (lookupD d m key) else lookupD d m k := by
  induction m with
  | nil =>
    by_cases hk : k = key
    · subst hk; simp [lookupD, updateD]
    · have : ¬ key = k := fun h => hk h.symm
      simp [lookupD, updateD, hk, this]
  | cons p m ih =>
    by_cases hp : p.1 = key
    · by_cases hk : k = key
      · subst hk
        simp [lookupD, updateD, hp]
      · have hpk : ¬ p.1 = k := fun h => hk (h.symm.trans hp)
        have hkk : ¬ key = k := fun h => hk h.symm
        simp [lookupD, updateD, hp, hpk, hk, hkk]
    · by_cases hk : k = key
      · subst hk
        simp [lookupD, updateD, hp, ih]
      · by_cases hpk : p.1 = k
        · simp [lookupD, updateD, hp, hpk, hk]
        · simp [lookupD, updateD, hp, hpk, hk, ih]


/-! ## `categorize_flights` (`src/caai_form_filler.py`)

The loop body is split into one definition per branch of the role decision
chain; `fillerStep` glues them together with exactly the source's `if/elif`
structure. -/

/-- Per-type accumulator of `categorize_flights` (the `type_stats`
defaultdict entry, with its default values). -/
structure TypeStats where
  caai_col : Str := "C".toList
  is_sim : Bool := false
  total : ℚ := 0
  form_total : ℚ := 0
  day_pic : ℚ := 0
  day_pic_xc : ℚ := 0
  day_sic : ℚ := 0
  day_student : ℚ := 0
  night_pic : ℚ := 0
  night_pic_xc : ℚ := 0
  night_sic : ℚ := 0
  night_student : ℚ := 0
  inst_actual : ℚ := 0
  inst_sim_air : ℚ := 0
  inst_sim_device : ℚ := 0
  dual_recv : ℚ := 0
  dual_inst : ℚ := 0
  night_time : ℚ := 0
  solo : ℚ := 0
  night_ldg : ℤ := 0
  complex_time : ℚ := 0
  safety_pilot : ℚ := 0
  deriving DecidableEq

/-- Grand totals of `categorize_flights` (the `grand` dict). -/
structure Grand where
  pic : ℚ := 0
  pic_xc : ℚ := 0
  sic : ℚ := 0
  student : ℚ := 0
  night_pic : ℚ := 0
  night_pic_xc : ℚ := 0
  night_sic : ℚ := 0
  night_student : ℚ := 0
  actual_inst : ℚ := 0
  sim_inst_air : ℚ := 0
  sim_device : ℚ := 0
  total : ℚ := 0
  form_total : ℚ := 0
  night : ℚ := 0
  dual : ℚ := 0
  dual_inst : ℚ := 0
  solo : ℚ := 0
  solo_xc : ℚ := 0
  night_ldg : ℤ := 0
  xc : ℚ := 0
  xc_all_roles : ℚ := 0
  complex : ℚ := 0
  safety_pilot_se : ℚ := 0
  me_time : ℚ := 0
  deriving DecidableEq

/-- Full state of one `categorize_flights` pass: the `type_stats` map (in
first-seen key order), the grand totals, and the three special flight lists. -/
structure FillerState where
  stats : List (Str × TypeStats) := []
  grand : Grand := {}
  night_pic_flights : List Flight := []
  inst_instruction_flights : List Flight := []
  complex_flights : List Flight := []
  deriving DecidableEq

/-- Read a type's accumulator (missing keys read as the defaultdict default). -/
def lookupTS (m : List (Str × TypeStats)) (k : Str) : TypeStats :=
  lookupD {} m k

/-- `ntype in ['PA44', 'BE76']` (line 188), on the normalized type. -/
def fillerIsCx (f : Flight) : Bool :=
  decide (normalize_type f.aircraft_type = "PA44".toList) ||
    decide (normalize_type f.aircraft_type = "BE76".toList)

/-- Per-type updates applied to every non-simulator flight before the role
branch (lines 156-189: category, totals, instrument, night, landings,
complex time). -/
def fillerTSBase (f : Flight) (ts : TypeStats) : TypeStats :=
  { ts with
    caai_col := get_caai_category f.aircraft_type,
    total := ts.total + f.total,
    inst_actual := ts.inst_actual + f.actual_inst,
    inst_sim_air := ts.inst_sim_air + f.sim_inst,
    night_time := ts.night_time + f.night,
    night_ldg := ts.night_ldg + f.night_ldg,
    complex_time := if fillerIsCx f then ts.complex_time + f.total else ts.complex_time }

/-- Grand-total updates applied to every non-simulator flight before the
role branch (lines 169-190). -/
def fillerG0 (f : Flight) (g : Grand) : Grand :=
  { g with
    actual_inst := g.actual_inst + f.actual_inst,
    sim_inst_air := g.sim_inst_air + f.sim_inst,
    total := g.total + f.total,
    night := g.night + f.night,
    night_ldg := g.night_ldg + f.night_ldg,
    xc_all_roles := if flight_is_xc f then g.xc_all_roles + f.total else g.xc_all_roles,
    me_time := if !is_single_engine f.aircraft_type then g.me_time + f.total else g.me_time,
    complex := if fillerIsCx f then g.complex + f.total else g.complex }

/-- `complex_flights.append(f)` when `ntype` is complex and `f['total'] > 0`
(lines 191-192). -/
def fillerCxList (f : Flight) (l : List Flight) : List Flight :=
  if fillerIsCx f && decide (f.total > 0) then l ++ [f] else l

/-- The simulator branch (lines 147-152). -/
def fillerSim (s : FillerState) (f : Flight) : FillerState :=
  { s with
    stats := updateD {} s.stats (normalize_type f.aircraft_type) (fun ts =>
      { ts with is_sim := true, inst_sim_device := ts.inst_sim_device + f.total }),
    grand := { s.grand with sim_device := s.grand.sim_device + f.total } }

/-- The Student branch (`if has_instructor`, lines 195-208). -/
def fillerStudent (s : FillerState) (f : Flight) : FillerState :=
  let hasInst := decide (f.actual_inst > 0) || decide (f.sim_inst > 0)
  let g0 := fillerG0 f s.grand
  { s with
    stats := updateD {} s.stats (normalize_type f.aircraft_type) (fun ts =>
      let ts := fillerTSBase f ts
      { ts with
        day_student := ts.day_student + (f.total - f.night),
        night_student := ts.night_student + f.night,
        form_total := ts.form_total + f.total,
        dual_recv := ts.dual_recv + f.total,
        dual_inst := if hasInst then ts.dual_inst + f.actual_inst + f.sim_inst
                     else ts.dual_inst }),
    grand :=
      { g0 with
        student := g0.student + f.total,
        dual := g0.dual + f.total,
        form_total := g0.form_total + f.total,
        night_student := if decide (f.night > 0) then g0.night_student + f.night
                         else g0.night_student,
        dual_inst := if hasInst then g0.dual_inst + f.actual_inst + f.sim_inst
                     else g0.dual_inst },
    inst_instruction_flights :=
      if hasInst then s.inst_instruction_flights ++ [f] else s.inst_instruction_flights,
    complex_flights := fillerCxList f s.complex_flights }

/-- The Safety-Pilot branch (`elif is_safety and single_engine`,
lines 209-211). -/
def fillerSafety (s : FillerState) (f : Flight) : FillerState :=
  let g0 := fillerG0 f s.grand
  { s with
    stats := updateD {} s.stats (normalize_type f.aircraft_type) (fun ts =>
      let ts := fillerTSBase f ts
      { ts with safety_pilot := ts.safety_pilot + f.total }),
    grand := { g0 with safety_pilot_se := g0.safety_pilot_se + f.total },
    complex_flights := fillerCxList f s.complex_flights }

/-- The SIC branch (`elif is_sic_field and not single_engine`,
lines 212-218). -/
def fillerSicME (s : FillerState) (f : Flight) : FillerState :=
  let g0 := fillerG0 f s.grand
  { s with
    stats := updateD {} s.stats (normalize_type f.aircraft_type) (fun ts =>
      let ts := fillerTSBase f ts
      { ts with
        day_sic := ts.day_sic + (f.total - f.night),
        night_sic := ts.night_sic + f.night,
        form_total := ts.form_total + f.total }),
    grand :=
      { g0 with
        sic := g0.sic + f.total,
        form_total := g0.form_total + f.total,
        night_sic := g0.night_sic + f.night },
    complex_flights := fillerCxList f s.complex_flights }

/-- The per-type updates shared by all three PIC branches (day/night PIC,
form total, and the cross-country sub-buckets when `is_xc`). -/
def fillerPicTS (f : Flight) (ts : TypeStats) : TypeStats :=
  let ts :=
    { ts with
      day_pic := ts.day_pic + (f.total - f.night),
      night_pic := ts.night_pic + f.night,
      form_total := ts.form_total + f.total }
  if flight_is_xc f then
    { ts with
      day_pic_xc := ts.day_pic_xc + (f.total - f.night),
      night_pic_xc := ts.night_pic_xc + f.night }
  else ts

/-- The grand-total updates shared by the non-solo PIC branches
(lines 220-233 and 255-268). -/
def fillerPicG (f : Flight) (g : Grand) : Grand :=
  let g := { g with pic := g.pic + f.total, form_total := g.form_total + f.total }
  let g := if flight_is_xc f then { g with pic_xc := g.pic_xc + f.total, xc := g.xc + f.total }
           else g
  if decide (f.night > 0) then
    { g with
      night_pic := g.night_pic + f.night,
      night_pic_xc := if flight_is_xc f then g.night_pic_xc + f.night else g.night_pic_xc }
  else g

/-- The two identical PIC branches: `elif is_sic_field and single_engine`
(lines 219-234) and the final `else` (lines 254-269). -/
def fillerPicPlain (s : FillerState) (f : Flight) : FillerState :=
  { s with
    stats := updateD {} s.stats (normalize_type f.aircraft_type)
      (fun ts => fillerPicTS f (fillerTSBase f ts)),
    grand := fillerPicG f (fillerG0 f s.grand),
    night_pic_flights :=
      if decide (f.night > 0) then s.night_pic_flights ++ [f] else s.night_pic_flights,
    complex_flights := fillerCxList f s.complex_flights }

/-- The solo PIC branch (`elif is_solo_flight`, lines 235-253). -/
def fillerSolo (s : FillerState) (f : Flight) : FillerState :=
  let g0 := fillerG0 f s.grand
  let g1 :=
    { g0 with
      pic := g0.pic + f.total,
      form_total := g0.form_total + f.total,
      solo := g0.solo + f.total }
  let g2 := if flight_is_xc f then
              { g1 with
                pic_xc := g1.pic_xc + f.total,
                solo_xc := g1.solo_xc + f.total,
                xc := g1.xc + f.total }
            else g1
  let g3 := if decide (f.night > 0) then
              { g2 with
                night_pic := g2.night_pic + f.night,
                night_pic_xc := if flight_is_xc f then g2.night_pic_xc + f.night
                                else g2.night_pic_xc }
            else g2
  { s with
    stats := updateD {} s.stats (normalize_type f.aircraft_type) (fun ts =>
      let ts := fillerTSBase f ts
      fillerPicTS f { ts with solo := ts.solo + f.total }),
    grand := g3,
    night_pic_flights :=
      if decide (f.night > 0) then s.night_pic_flights ++ [f] else s.night_pic_flights,
    complex_flights := fillerCxList f s.complex_flights }

/-- One iteration of the `for f in flights` loop of `categorize_flights`
(`caai_form_filler.py` lines 143-269): skip blank types, divert simulators,
then dispatch on the role decision chain. -/
def fillerStep (s : FillerState) (f : Flight) : FillerState :=
  if f.aircraft_type.isEmpty then s
  else if is_simulator f.aircraft_type f.reg then fillerSim s f
  else if hasInstructorB f then fillerStudent s f
  else if strContains (pyLower f.remarks) safetyMarker &&
          is_single_engine f.aircraft_type then fillerSafety s f
  else if (decide (f.sic > 0) && !hasInstructorB f) &&
          !is_single_engine f.aircraft_type then fillerSicME s f
  else if (decide (f.sic > 0) && !hasInstructorB f) &&
          is_single_engine f.aircraft_type then fillerPicPlain s f
  else if decide (f.solo > 0) then fillerSolo s f
  else fillerPicPlain s f

/-- `categorize_flights(flights)`: fold the loop body over the input list,
starting from empty accumulators. -/
def runFiller (flights : List Flight) : FillerState :=
  flights.foldl fillerStep {}

/-- The half-credit grand total of `fill_caai_form` (`caai_form_filler.py`
line 507): `grand['pic'] + grand['sic'] / 2 + grand['student']`. -/
def caai_grand_total (g : Grand) : ℚ :=
  g.pic + g.sic / 2 + g.student

/-! ## The summary-sheet ordering of `fill_caai_form`
(`caai_form_filler.py` lines 335-346) -/

/-- Stable insertion of `x` into a list sorted by descending `key`: `x` goes
in front of the first element whose key does not exceed `x`'s. -/
def insertByKey (key : α → ℚ) (x : α) : List α → List α
  | [] => [x]
  | y :: ys => if key y ≤ key x then x :: y :: ys else y :: insertByKey key x ys

/-- Stable sort by descending `key`: the model of Python's
`list.sort(key=..., reverse=True)` (Python's sort is stable, so elements
with equal keys keep their original relative order). -/
def sortByKeyDesc (key : α → ℚ) : List α → List α
  | [] => []
  | x :: xs => insertByKey key x (sortByKeyDesc key xs)

/-- `real_types` (line 335): non-simulator types with positive total time,
in first-seen order (`type_stats.items()` preserves insertion order). -/
def real_types (s : FillerState) : List (Str × TypeStats) :=
  s.stats.filter (fun p => !p.2.is_sim && decide (p.2.total > 0))

/-- The order in which the summary sheet lists aircraft types (line 336):
`real_types.sort(key=lambda x: x[1]['form_total'], reverse=True)`. -/
def summary_order (s : FillerState) : List (Str × TypeStats) :=
  sortByKeyDesc (fun p => p.2.form_total) (real_types s)

/-- The rows actually written to the summary sheet: the fill loop breaks as
soon as `i >= 10` (lines 343-346). -/
def summary_rows (s : FillerState) : List (Str × TypeStats) :=
  (summary_order s).take 10

/-- Whether the `WARNING: More than 10 types, truncating!` message is
printed (line 345). -/
def overflow_warn (s : FillerState) : Bool :=
  decide ((summary_order s).length > 10)

/-! ## `analyze_caai` (`src/caai_analyzer.py`)

Same shape as the form filler: one definition per branch of its (different)
role chain, glued together by `analyzerStep`. -/

/-- Per-type accumulator of `analyze_caai` (the `type_totals` defaultdict
entry; it is keyed by the raw, unnormalized aircraft type). -/
structure ATypeTotals where
  category : Str := []
  is_sim : Bool := false
  is_multi : Bool := false
  total : ℚ := 0
  day_pic : ℚ := 0
  day_pic_xc : ℚ := 0
  day_sic : ℚ := 0
  day_student : ℚ := 0
  night_pic : ℚ := 0
  night_pic_xc : ℚ := 0
  night_sic : ℚ := 0
  night_student : ℚ := 0
  actual_inst : ℚ := 0
  sim_inst_air : ℚ := 0
  sim_time : ℚ := 0
  day_ldg : ℤ := 0
  night_ldg : ℤ := 0
  flights : ℤ := 0
  deriving DecidableEq

/-- Grand totals of `analyze_caai` (the `grand_totals` dict). -/
structure AGrand where
  total_flights : ℤ := 0
  total_time : ℚ := 0
  pic_time : ℚ := 0
  sic_time : ℚ := 0
  student_time : ℚ := 0
  solo_time : ℚ := 0
  instructor_time : ℚ := 0
  night_time : ℚ := 0
  xc_time : ℚ := 0
  actual_inst : ℚ := 0
  sim_inst : ℚ := 0
  sim_time : ℚ := 0
  day_ldg : ℤ := 0
  night_ldg : ℤ := 0
  pic_xc : ℚ := 0
  night_pic : ℚ := 0
  night_pic_xc : ℚ := 0
  dual_night : ℚ := 0
  solo_xc : ℚ := 0
  safety_pilot_se : ℚ := 0
  deriving DecidableEq

/-- State of one `analyze_caai` categorization pass. -/
structure AState where
  tt : List (Str × ATypeTotals) := []
  grand : AGrand := {}
  deriving DecidableEq

/-- `t['is_sim']`, `t['is_multi']`, `t['flights'] += 1` — set before the
simulator test (lines 113-115). -/
def aPre (f : Flight) (t : ATypeTotals) : ATypeTotals :=
  { t with
    is_sim := is_simulator f.aircraft_type f.reg,
    is_multi := !is_single_engine f.aircraft_type,
    flights := t.flights + 1 }

/-- The analyzer's simulator branch (lines 117-123). -/
def aSim (s : AState) (f : Flight) : AState :=
  { s with
    tt := updateD {} s.tt f.aircraft_type (fun t =>
      let t := aPre f t
      { t with
        sim_time := t.sim_time + f.total,
        category := "simulator".toList,
        actual_inst := t.actual_inst + f.actual_inst,
        sim_inst_air := t.sim_inst_air + f.sim_inst }),
    grand := { s.grand with sim_time := s.grand.sim_time + f.total } }

/-- Per-type updates applied to every non-simulator flight before the
analyzer's role branch (lines 125-143). -/
def aTSBase (f : Flight) (t : ATypeTotals) : ATypeTotals :=
  let t := aPre f t
  { t with
    category := get_caai_category f.aircraft_type,
    total := t.total + f.total,
    actual_inst := t.actual_inst + f.actual_inst,
    sim_inst_air := t.sim_inst_air + f.sim_inst,
    day_ldg := t.day_ldg + f.day_ldg,
    night_ldg := t.night_ldg + f.night_ldg }

/-- Grand-total updates applied to every non-simulator flight before the
analyzer's role branch (lines 127-153). -/
def aG0 (f : Flight) (g : AGrand) : AGrand :=
  { g with
    total_flights := g.total_flights + 1,
    total_time := g.total_time + f.total,
    night_time := g.night_time + f.night,
    actual_inst := g.actual_inst + f.actual_inst,
    sim_inst := g.sim_inst + f.sim_inst,
    day_ldg := g.day_ldg + f.day_ldg,
    night_ldg := g.night_ldg + f.night_ldg,
    xc_time := if flight_is_xc f then g.xc_time + f.total else g.xc_time }

/-- The per-type PIC updates shared by all analyzer PIC branches. -/
def aPicT (f : Flight) (t : ATypeTotals) : ATypeTotals :=
  let t :=
    { t with
      day_pic := t.day_pic + (f.total - f.night),
      night_pic := t.night_pic + f.night }
  if flight_is_xc f then
    { t with
      day_pic_xc := t.day_pic_xc + (f.total - f.night),
      night_pic_xc := t.night_pic_xc + f.night }
  else t

/-- The grand-total night-PIC updates shared by all analyzer PIC branches. -/
def aNightPicG (f : Flight) (g : AGrand) : AGrand :=
  if decide (f.night > 0) then
    { g with
      night_pic := g.night_pic + f.night,
      night_pic_xc := if flight_is_xc f then g.night_pic_xc + f.night else g.night_pic_xc }
  else g

/-- The analyzer's Student branch (lines 155-160). -/
def aStudent (s : AState) (f : Flight) : AState :=
  let g0 := aG0 f s.grand
  { s with
    tt := updateD {} s.tt f.aircraft_type (fun t =>
      let t := aTSBase f t
      { t with
        day_student := t.day_student + (f.total - f.night),
        night_student := t.night_student + f.night }),
    grand :=
      { g0 with
        student_time := g0.student_time + f.total,
        dual_night := if decide (f.night > 0) then g0.dual_night + f.night
                      else g0.dual_night } }

/-- The analyzer's safety-pilot-on-single-engine branch (lines 161-162). -/
def aSafetySE (s : AState) (f : Flight) : AState :=
  { s with
    tt := updateD {} s.tt f.aircraft_type (aTSBase f),
    grand := { aG0 f s.grand with
               safety_pilot_se := (aG0 f s.grand).safety_pilot_se + f.total } }

/-- The analyzer's instructor branch (`elif is_instructor`, lines 163-175). -/
def aInstructor (s : AState) (f : Flight) : AState :=
  let g0 := aG0 f s.grand
  let g1 := if flight_is_xc f then { g0 with pic_xc := g0.pic_xc + f.total } else g0
  { s with
    tt := updateD {} s.tt f.aircraft_type (fun t => aPicT f (aTSBase f t)),
    grand := aNightPicG f
      { g1 with
        pic_time := g1.pic_time + f.total,
        instructor_time := g1.instructor_time + f.total } }

/-- The analyzer's solo branch (`elif is_solo`, lines 176-189). -/
def aSolo (s : AState) (f : Flight) : AState :=
  let g0 := aG0 f s.grand
  let g1 := if flight_is_xc f then
              { g0 with
                pic_xc := g0.pic_xc + f.total,
                solo_xc := g0.solo_xc + f.total }
            else g0
  { s with
    tt := updateD {} s.tt f.aircraft_type (fun t => aPicT f (aTSBase f t)),
    grand := aNightPicG f
      { g1 with
        pic_time := g1.pic_time + f.total,
        solo_time := g1.solo_time + f.total } }

/-- The analyzer's SIC branch (`elif is_sic and not single_engine`,
lines 190-193). -/
def aSicME (s : AState) (f : Flight) : AState :=
  let g0 := aG0 f s.grand
  { s with
    tt := updateD {} s.tt f.aircraft_type (fun t =>
      let t := aTSBase f t
      { t with
        day_sic := t.day_sic + (f.total - f.night),
        night_sic := t.night_sic + f.night }),
    grand := { g0 with sic_time := g0.sic_time + f.total } }

/-- The analyzer's `elif f['pic'] > 0` branch and its final
`elif f['total'] > 0` twin (lines 194-205 and 211-222). -/
def aPicPlain (s : AState) (f : Flight) : AState :=
  let g0 := aG0 f s.grand
  let g1 := if flight_is_xc f then { g0 with pic_xc := g0.pic_xc + f.total } else g0
  { s with
    tt := updateD {} s.tt f.aircraft_type (fun t => aPicT f (aTSBase f t)),
    grand := aNightPicG f { g1 with pic_time := g1.pic_time + f.total } }

/-- The analyzer's safety-pilot-otherwise branch (`if is_safety` inside the
final `else`, lines 207-210): credited as SIC. -/
def aSafetySIC (s : AState) (f : Flight) : AState :=
  let g0 := aG0 f s.grand
  { s with
    tt := updateD {} s.tt f.aircraft_type (fun t =>
      let t := aTSBase f t
      { t with
        day_sic := t.day_sic + (f.total - f.night),
        night_sic := t.night_sic + f.night }),
    grand := { g0 with sic_time := g0.sic_time + f.total } }

/-- The analyzer's fall-through: common updates only, no role credit
(final `else` with `f['total'] <= 0`). -/
def aNone (s : AState) (f : Flight) : AState :=
  { s with
    tt := updateD {} s.tt f.aircraft_type (aTSBase f),
    grand := aG0 f s.grand }

/-- One iteration of the categorization loop of `analyze_caai`
(`caai_analyzer.py` lines 105-222): note the different branch order from
`categorize_flights` (instructor-given and solo are tested before SIC, and
a non-single-engine safety-pilot remark is credited as SIC at the end). -/
def analyzerStep (s : AState) (f : Flight) : AState :=
  if f.aircraft_type.isEmpty then s
  else if is_simulator f.aircraft_type f.reg then aSim s f
  else if hasInstructorB f then aStudent s f
  else if strContains (pyLower f.remarks) safetyMarker &&
          is_single_engine f.aircraft_type then aSafetySE s f
  else if decide (f.dual_given > 0) then aInstructor s f
  else if decide (f.solo > 0) then aSolo s f
  else if (decide (f.sic > 0) && !hasInstructorB f) &&
          !is_single_engine f.aircraft_type then aSicME s f
  else if decide (f.pic > 0) then aPicPlain s f
  else if strContains (pyLower f.remarks) safetyMarker then aSafetySIC s f
  else if decide (f.total > 0) then aPicPlain s f
  else aNone s f

/-- The categorization pass of `analyze_caai`, as a fold from empty
accumulators. -/
def runAnalyzer (flights : List Flight) : AState :=
  flights.foldl analyzerStep {}

/-- The half-credit total of `analyze_caai` (`caai_analyzer.py` lines
269-270): `sic_half = sic_time / 2; caai_total = pic_time + student_time +
sic_half`. -/
def analyzer_caai_total (g : AGrand) : ℚ :=
  g.pic_time + g.student_time + g.sic_time / 2

/-! ## Branch-level facts about the grand-total role buckets -/

theorem fillerG0_roles (f : Flight) (g : Grand) :
    (fillerG0 f g).pic = g.pic ∧ (fillerG0 f g).sic = g.sic ∧
    (fillerG0 f g).student = g.student ∧
    (fillerG0 f g).safety_pilot_se = g.safety_pilot_se ∧
    (fillerG0 f g).form_total = g.form_total :=
  ⟨rfl, rfl, rfl, rfl, rfl⟩

theorem fillerPicG_roles (f : Flight) (g : Grand) :
    (fillerPicG f g).pic = g.pic + f.total ∧ (fillerPicG f g).sic = g.sic ∧
    (fillerPicG f g).student = g.student ∧
    (fillerPicG f g).safety_pilot_se = g.safety_pilot_se ∧
    (fillerPicG f g).form_total = g.form_total + f.total := by
  simp only [fillerPicG]
  split_ifs <;> exact ⟨rfl, rfl, rfl, rfl, rfl⟩

theorem fillerSim_roles (s : FillerState) (f : Flight) :
    (fillerSim s f).grand.pic = s.grand.pic ∧ (fillerSim s f).grand.sic = s.grand.sic ∧
    (fillerSim s f).grand.student = s.grand.student ∧
    (fillerSim s f).grand.safety_pilot_se = s.grand.safety_pilot_se ∧
    (fillerSim s f).grand.form_total = s.grand.form_total :=
  ⟨rfl, rfl, rfl, rfl, rfl⟩

theorem fillerStudent_roles (s : FillerState) (f : Flight) :
    (fillerStudent s f).grand.student = s.grand.student + f.total ∧
    (fillerStudent s f).grand.sic = s.grand.sic ∧
    (fillerStudent s f).grand.pic = s.grand.pic ∧
    (fillerStudent s f).grand.safety_pilot_se = s.grand.safety_pilot_se ∧
    (fillerStudent s f).grand.form_total = s.grand.form_total + f.total :=
  ⟨rfl, rfl, rfl, rfl, rfl⟩

theorem fillerSafety_roles (s : FillerState) (f : Flight) :
    (fillerSafety s f).grand.student = s.grand.student ∧
    (fillerSafety s f).grand.sic = s.grand.sic ∧
    (fillerSafety s f).grand.pic = s.grand.pic ∧
    (fillerSafety s f).grand.safety_pilot_se = s.grand.safety_pilot_se + f.total ∧
    (fillerSafety s f).grand.form_total = s.grand.form_total :=
  ⟨rfl, rfl, rfl, rfl, rfl⟩

theorem fillerSicME_roles (s : FillerState) (f : Flight) :
    (fillerSicME s f).grand.student = s.grand.student ∧
    (fillerSicME s f).grand.sic = s.grand.sic + f.total ∧
    (fillerSicME s f).grand.pic = s.grand.pic ∧
    (fillerSicME s f).grand.safety_pilot_se = s.grand.safety_pilot_se ∧
    (fillerSicME s f).grand.form_total = s.grand.form_total + f.total :=
  ⟨rfl, rfl, rfl, rfl, rfl⟩

theorem fillerPicPlain_roles (s : FillerState) (f : Flight) :
    (fillerPicPlain s f).grand.student = s.grand.student ∧
    (fillerPicPlain s f).grand.sic = s.grand.sic ∧
    (fillerPicPlain s f).grand.pic = s.grand.pic + f.total ∧
    (fillerPicPlain s f).grand.safety_pilot_se = s.grand.safety_pilot_se ∧
    (fillerPicPlain s f).grand.form_total = s.grand.form_total + f.total := by
  have h := fillerPicG_roles f (fillerG0 f s.grand)
  exact ⟨h.2.2.1, h.2.1, h.1, h.2.2.2.1, h.2.2.2.2⟩

theorem fillerSolo_roles (s : FillerState) (f : Flight) :
    (fillerSolo s f).grand.student = s.grand.student ∧
    (fillerSolo s f).grand.sic = s.grand.sic ∧
    (fillerSolo s f).grand.pic = s.grand.pic + f.total ∧
    (fillerSolo s f).grand.safety_pilot_se = s.grand.safety_pilot_se ∧
    (fillerSolo s f).grand.form_total = s.grand.form_total + f.total := by
  simp only [fillerSolo]
  split_ifs <;> exact ⟨rfl, rfl, rfl, rfl, rfl⟩

theorem fillerStep_role_deltas (s : FillerState) (f : Flight)
    (hne : f.aircraft_type.isEmpty = false)
    (hns : is_simulator f.aircraft_type f.reg = false) :
    (fillerStep s f).grand.student =
      s.grand.student + (if classify_role f = Role.student then f.total else 0) ∧
    (fillerStep s f).grand.sic =
      s.grand.sic + (if classify_role f = Role.sic then f.total else 0) ∧
    (fillerStep s f).grand.pic =
      s.grand.pic + (if classify_role f = Role.pic then f.total else 0) ∧
    (fillerStep s f).grand.safety_pilot_se =
      s.grand.safety_pilot_se + (if classify_role f = Role.safety then f.total else 0) ∧
    (fillerStep s f).grand.form_total =
      s.grand.form_total + (if classify_role f = Role.safety then 0 else f.total) := by
  have hstu := fillerStudent_roles s f
  have hsaf := fillerSafety_roles s f
  have hsme := fillerSicME_roles s f
  have hpic := fillerPicPlain_roles s f
  have hsol := fillerSolo_roles s f
  simp only [fillerStep, classify_role, hne, hns, Bool.false_eq_true, if_false]
  split_ifs <;>
    simp [hstu.1, hstu.2.1, hstu.2.2.1, hstu.2.2.2.1, hstu.2.2.2.2,
      hsaf.1, hsaf.2.1, hsaf.2.2.1, hsaf.2.2.2.1, hsaf.2.2.2.2,
      hsme.1, hsme.2.1, hsme.2.2.1, hsme.2.2.2.1, hsme.2.2.2.2,
      hpic.1, hpic.2.1, hpic.2.2.1, hpic.2.2.2.1, hpic.2.2.2.2,
      hsol.1, hsol.2.1, hsol.2.2.1, hsol.2.2.2.1, hsol.2.2.2.2] <;>
    simp_all

/-! ## Claim C1 -/

theorem classify_role_eq (f : Flight) :
    classify_role f =
      if f.instructor ≠ [] ∨ f.dual_recv > 0 then Role.student
      else if strContains (pyLower f.remarks) safetyMarker = true ∧
              is_single_engine f.aircraft_type = true then Role.safety
      else if f.sic > 0 ∧ is_single_engine f.aircraft_type = false then Role.sic
      else Role.pic := by
  by_cases h1 : f.instructor = [] <;>
  by_cases h2 : 0 < f.dual_recv <;>
  cases hS : strContains (pyLower f.remarks) safetyMarker <;>
  cases hE : is_single_engine f.aircraft_type <;>
  by_cases hq : 0 < f.sic <;>
  by_cases hz : 0 < f.solo <;>
    simp [classify_role, hasInstructorB, List.isEmpty_iff, h1, h2, hS, hE, hq, hz]

open Classical in
/-- Claim C1: for flight records with a non-empty, non-simulator aircraft
type, the role classifier assigns exactly one role (it is a total function
into the four-role enumeration) by the fixed priority chain: Student when
an instructor is named or dual time was received; else Safety-Pilot when
the remarks contain the safety-pilot marker and the aircraft is
single-engine; else SIC when `sic > 0` and the aircraft is multi-engine;
else PIC (whether or not `solo > 0`). Consequences: an instructor always
yields Student; a single-engine flight is never SIC, and with `sic > 0`,
no instructor and no safety-pilot remark it is PIC; and one step of the
aggregator credits `f.total` to exactly the grand bucket of the assigned
role. -/
theorem C1_role_priority (f : Flight)
    (hne : f.aircraft_type ≠ []) (hns : is_simulator f.aircraft_type f.reg = false) :
    (classify_role f =
      if f.instructor ≠ [] ∨ f.dual_recv > 0 then Role.student
      else if containsSub (pyLower f.remarks) safetyMarker ∧
              is_single_engine f.aircraft_type = true then Role.safety
      else if f.sic > 0 ∧ is_single_engine f.aircraft_type = false then Role.sic
      else Role.pic) ∧
    ((f.instructor ≠ [] ∨ f.dual_recv > 0) → classify_role f = Role.student) ∧
    (is_single_engine f.aircraft_type = true → classify_role f ≠ Role.sic) ∧
    (is_single_engine f.aircraft_type = true → f.sic > 0 → f.instructor = [] →
      ¬ f.dual_recv > 0 → ¬ containsSub (pyLower f.remarks) safetyMarker →
      classify_role f = Role.pic) ∧
    (∀ s : FillerState,
      (fillerStep s f).grand.student =
        s.grand.student + (if classify_role f = Role.student then f.total else 0) ∧
      (fillerStep s f).grand.sic =
        s.grand.sic + (if classify_role f = Role.sic then f.total else 0) ∧
      (fillerStep s f).grand.pic =
        s.grand.pic + (if classify_role f = Role.pic then f.total else 0) ∧
      (fillerStep s f).grand.safety_pilot_se =
        s.grand.safety_pilot_se + (if classify_role f = Role.safety then f.total else 0)) := by
  have hne' : f.aircraft_type.isEmpty = false := by
    cases h : f.aircraft_type.isEmpty
    · rfl
    · exact absurd (List.isEmpty_iff.mp h) hne
  refine ⟨?_, ?_, ?_, ?_, fun s => ?_⟩
  · rw [classify_role_eq]
    simp only [strContains_iff]
  · intro h
    rw [classify_role_eq, if_pos h]
  · intro hse
    rw [classify_role_eq]
    split_ifs <;> simp_all
  · intro hse hsic hni hnd hnsafe
    rw [← strContains_iff] at hnsafe
    rw [classify_role_eq]
    have h1 : ¬ (f.instructor ≠ [] ∨ f.dual_recv > 0) := by
      rintro (h | h)
      · exact h hni
      · exact hnd h
    rw [if_neg h1, if_neg (by simp_all), if_neg (by simp_all)]
  · have h := fillerStep_role_deltas s f hne' hns
    exact ⟨h.1, h.2.1, h.2.2.1, h.2.2.2.1⟩

def fC1 : Flight := { aircraft_type := "C172".toList, sic := 3, total := 2 }

theorem C1_role_priority_witness :
    fC1.aircraft_type ≠ [] ∧ is_simulator fC1.aircraft_type fC1.reg = false ∧
    classify_role fC1 = Role.pic ∧
    (fillerStep {} fC1).grand.pic =
      ({} : FillerState).grand.pic + (if classify_role fC1 = Role.pic then fC1.total else 0) := by
  have h := C1_role_priority fC1 (by decide) (by decide)
  refine ⟨by decide, by decide, ?_, (h.2.2.2.2 {}).2.2.1⟩
  exact h.2.2.2.1 (by decide) (by decide) rfl (by decide)
    (fun hc => absurd ((strContains_iff (pyLower fC1.remarks) safetyMarker).mpr hc) (by decide))

/-! ## Claim C3 -/

/-- Claim C3: the half-credit grand total equals
`grand.pic + grand.sic / 2 + grand.student`, with SIC divided by exactly 2
once at the end and PIC and Student at full weight, in both the form filler
and the analyzer; for `pic=100, sic=20, student=50` the result is `160`. -/
theorem C3_half_credit (g : Grand) (h1 : g.pic = 100) (h2 : g.sic = 20)
    (h3 : g.student = 50) :
    caai_grand_total g = 160 ∧
    (∀ g2 : Grand, caai_grand_total g2 = g2.pic + g2.sic / 2 + g2.student) ∧
    (∀ a : AGrand, analyzer_caai_total a = a.pic_time + a.sic_time / 2 + a.student_time) := by
  refine ⟨?_, fun g2 => rfl, fun a => by unfold analyzer_caai_total; ring⟩
  rw [caai_grand_total, h1, h2, h3]
  norm_num

theorem C3_half_credit_witness :
    ({ pic := 100, sic := 20, student := 50 } : Grand).pic = 100 ∧
    caai_grand_total { pic := 100, sic := 20, student := 50 } = 160 :=
  ⟨rfl, (C3_half_credit { pic := 100, sic := 20, student := 50 } rfl rfl rfl).1⟩

/-! ## Claim C9 -/

/-- Claim C9: the cross-country flag equals
`(xc_time_field > 0) OR (distance_nm > 27)`, each condition alone being
sufficient; at the boundary, `xc = 0` with `distance = 27` is not
cross-country, while `distance = 27.1` is. -/
theorem C9_xc_flag (f : Flight) :
    (flight_is_xc f = true ↔ (f.xc > 0 ∨ f.distance > 27)) ∧
    (f.xc > 0 → flight_is_xc f = true) ∧
    (f.distance > 27 → flight_is_xc f = true) ∧
    (f.xc = 0 → f.distance = 27 → flight_is_xc f = false) ∧
    (f.xc = 0 → f.distance = 27.1 → flight_is_xc f = true) := by
  refine ⟨by simp [flight_is_xc], ?_, ?_, ?_, ?_⟩
  · intro h; simp [flight_is_xc, h]
  · intro h; simp [flight_is_xc, h]
  · intro h1 h2; simp [flight_is_xc, h1, h2]
  · intro h1 h2
    have : f.distance > 27 := by rw [h2]; norm_num
    simp [flight_is_xc, this]

theorem C9_xc_flag_witness :
    flight_is_xc { distance := 27 } = false ∧ flight_is_xc { distance := 27.1 } = true :=
  ⟨(C9_xc_flag { distance := 27 }).2.2.2.1 rfl rfl,
   (C9_xc_flag { distance := 27.1 }).2.2.2.2 rfl rfl⟩

/-! ## Claim C2 -/

/-- Claim C2: a flight classified Safety-Pilot (safety-pilot remark,
single-engine, no instructor) has its `total` accumulated only into
`grand['safety_pilot_se']` and the per-type `safety_pilot` bucket; the
`pic`, `sic`, `student` and `form_total` accumulators are unchanged by its
role contribution (for every type key `k`, the per-type `form_total` is
also unchanged). -/
theorem C2_safety_frame (s : FillerState) (f : Flight) (k : Str)
    (hne : f.aircraft_type ≠ [])
    (hns : is_simulator f.aircraft_type f.reg = false)
    (hsp : containsSub (pyLower f.remarks) safetyMarker)
    (hse : is_single_engine f.aircraft_type = true)
    (hni : f.instructor = []) (hnd : ¬ f.dual_recv > 0) :
    (fillerStep s f).grand.pic = s.grand.pic ∧
    (fillerStep s f).grand.sic = s.grand.sic ∧
    (fillerStep s f).grand.student = s.grand.student ∧
    (fillerStep s f).grand.form_total = s.grand.form_total ∧
    (fillerStep s f).grand.safety_pilot_se = s.grand.safety_pilot_se + f.total ∧
    (lookupTS (fillerStep s f).stats (normalize_type f.aircraft_type)).safety_pilot
      = (lookupTS s.stats (normalize_type f.aircraft_type)).safety_pilot + f.total ∧
    (lookupTS (fillerStep s f).stats k).form_total = (lookupTS s.stats k).form_total := by
  have hne' : f.aircraft_type.isEmpty = false := by
    cases h : f.aircraft_type.isEmpty
    · rfl
    · exact absurd (List.isEmpty_iff.mp h) hne
  have hIf : hasInstructorB f = false := by
    simp [hasInstructorB, List.isEmpty_iff, hni, hnd]
  have hb : (strContains (pyLower f.remarks) safetyMarker &&
      is_single_engine f.aircraft_type) = true := by
    simp [(strContains_iff _ _).mpr hsp, hse]
  have hstep : fillerStep s f = fillerSafety s f := by
    simp [fillerStep, hne', hns, hIf, hb]
  rw [hstep]
  have h := fillerSafety_roles s f
  refine ⟨h.2.2.1, h.2.1, h.1, h.2.2.2.2, h.2.2.2.1, ?_, ?_⟩
  · simp [fillerSafety, lookupTS, lookupD_updateD, fillerTSBase]
  · simp only [fillerSafety, lookupTS, lookupD_updateD]
    split_ifs with hk
    · subst hk; rfl
    · rfl

def fC2 : Flight :=
  { aircraft_type := "C172".toList, reg := "N100".toList, total := 2, night := 1,
    remarks := "Safety Pilot duty".toList }

theorem C2_safety_frame_witness :
    (fillerStep {} fC2).grand.safety_pilot_se =
      ({} : FillerState).grand.safety_pilot_se + fC2.total ∧
    (fillerStep {} fC2).grand.form_total = ({} : FillerState).grand.form_total := by
  have h := C2_safety_frame {} fC2 "C172".toList (by decide) (by decide)
    ((strContains_iff _ _).mp (by decide)) (by decide) rfl (by decide)
  exact ⟨h.2.2.2.2.1, h.2.2.2.1⟩

/-! ## Claim C4 -/

theorem fillerStep_form_balance (s : FillerState) (f : Flight) :
    (fillerStep s f).grand.form_total -
        ((fillerStep s f).grand.pic + (fillerStep s f).grand.sic +
          (fillerStep s f).grand.student) =
      s.grand.form_total - (s.grand.pic + s.grand.sic + s.grand.student) := by
  by_cases hne : f.aircraft_type.isEmpty = true
  · simp [fillerStep, hne]
  · have hne' : f.aircraft_type.isEmpty = false := by
      cases h : f.aircraft_type.isEmpty
      · rfl
      · exact absurd h hne
    by_cases hns : is_simulator f.aircraft_type f.reg = true
    · have hsim : fillerStep s f = fillerSim s f := by
        simp [fillerStep, hne', hns]
      have h := fillerSim_roles s f
      rw [hsim, h.1, h.2.1, h.2.2.1, h.2.2.2.2]
    · have hns' : is_simulator f.aircraft_type f.reg = false := by
        cases h : is_simulator f.aircraft_type f.reg
        · rfl
        · exact absurd h hns
      have h := fillerStep_role_deltas s f hne' hns'
      rw [h.1, h.2.1, h.2.2.1, h.2.2.2.2]
      cases hcr : classify_role f <;> simp [hcr] <;> ring

/-- Claim C4: after `categorize_flights`, `grand['form_total']` equals
`grand['pic'] + grand['sic'] + grand['student']` exactly (difference 0, not
merely within the 0.5 reconciliation epsilon), for every input sequence:
every branch that adds a flight's total to `form_total` adds the same
amount to exactly one of the three role totals, and no other branch
touches `form_total`. -/
theorem C4_form_total_identity (flights : List Flight) :
    (runFiller flights).grand.form_total =
      (runFiller flights).grand.pic + (runFiller flights).grand.sic +
        (runFiller flights).grand.student := by
  suffices h : ∀ s : FillerState,
      (List.foldl fillerStep s flights).grand.form_total -
          ((List.foldl fillerStep s flights).grand.pic +
            (List.foldl fillerStep s flights).grand.sic +
            (List.foldl fillerStep s flights).grand.student) =
        s.grand.form_total - (s.grand.pic + s.grand.sic + s.grand.student) by
    have h0 := h {}
    unfold runFiller
    simp only [show ({} : FillerState).grand.form_total = 0 from rfl,
      show ({} : FillerState).grand.pic = 0 from rfl,
      show ({} : FillerState).grand.sic = 0 from rfl,
      show ({} : FillerState).grand.student = 0 from rfl] at h0
    linarith
  induction flights with
  | nil => intro s; simp
  | cons f fs ih =>
    intro s
    simp only [List.foldl_cons]
    rw [ih (fillerStep s f), fillerStep_form_balance]

/-! ## Claim C7 -/

/-- The claim's reading of the simulator test, for comparison with the
code: ONE fixed marker set, with any marker sufficient in EITHER field
(plus the first-token vendor test on the registration). -/
def is_simulator_spec (aircraft_type registration : Str) : Bool :=
  (["SIM".toList, "FTD".toList, "FFS".toList, "FRASCA".toList,
    "FLIGHT SAFETY".toList, "CAE".toList]).any (fun m =>
      strContains (pyUpper aircraft_type) m || strContains (pyUpper registration) m) ||
    decide (firstTok (pyUpper registration) = "ATP".toList)

/-- Claim C7 counterexample: a registration string containing the marker
"FTD" satisfies the claim's either-field rule, but the code tests "FTD"
only against the aircraft type and returns false for
`is_simulator("C172", "FTD")`. -/
theorem C7_counterexample :
    is_simulator "C172".toList "FTD".toList = false ∧
    is_simulator_spec "C172".toList "FTD".toList = true ∧
    containsSub (pyUpper "FTD".toList) "FTD".toList :=
  ⟨by decide, by decide, (strContains_iff _ _).mp (by decide)⟩

/-- Claim C7 amended: `is_simulator` returns true iff the aircraft type
contains one of SIM/FTD/FFS as a case-insensitive substring, or the
registration contains one of FRASCA/"FLIGHT SAFETY"/CAE as a
case-insensitive substring, or the first whitespace-delimited token of the
uppercased registration equals "ATP"; each substring marker is tested only
in its own field, not in either field. -/
theorem C7_amended (a r : Str) :
    is_simulator a r = true ↔
      (containsSub (pyUpper a) "SIM".toList ∨ containsSub (pyUpper a) "FTD".toList ∨
       containsSub (pyUpper a) "FFS".toList ∨ containsSub (pyUpper r) "FRASCA".toList ∨
       containsSub (pyUpper r) "FLIGHT SAFETY".toList ∨
       containsSub (pyUpper r) "CAE".toList ∨
       firstTok (pyUpper r) = "ATP".toList) := by
  simp [is_simulator, strContains_iff, or_assoc]

/-! ## Claim C8 -/

theorem insertByKey_perm (key : α → ℚ) (x : α) (l : List α) :
    (insertByKey key x l).Perm (x :: l) := by
  induction l with
  | nil => exact List.Perm.refl _
  | cons y ys ih =>
    simp only [insertByKey]
    split_ifs
    · exact List.Perm.refl _
    · exact (ih.cons y).trans (List.Perm.swap x y ys)

theorem sortByKeyDesc_perm (key : α → ℚ) (l : List α) :
    (sortByKeyDesc key l).Perm l := by
  induction l with
  | nil => exact List.Perm.refl _
  | cons x xs ih =>
    exact (insertByKey_perm key x (sortByKeyDesc key xs)).trans (ih.cons x)

theorem mem_insertByKey (key : α → ℚ) (x z : α) (l : List α) :
    z ∈ insertByKey key x l ↔ z = x ∨ z ∈ l :=
  ((insertByKey_perm key x l).mem_iff).trans (by simp)

theorem insertByKey_pairwise (key : α → ℚ) (x : α) (l : List α)
    (h : l.Pairwise (fun a b => key b ≤ key a)) :
    (insertByKey key x l).Pairwise (fun a b => key b ≤ key a) := by
  induction l with
  | nil => simp [insertByKey]
  | cons y ys ih =>
    rcases List.pairwise_cons.mp h with ⟨hy, hys⟩
    simp only [insertByKey]
    split_ifs with hxy
    · refine List.pairwise_cons.mpr ⟨?_, h⟩
      intro z hz
      rcases List.mem_cons.mp hz with rfl | hz
      · exact hxy
      · exact le_trans (hy z hz) hxy
    · refine List.pairwise_cons.mpr ⟨?_, ih hys⟩
      intro z hz
      rcases (mem_insertByKey key x z ys).mp hz with rfl | hz
      · exact le_of_not_le hxy
      · exact hy z hz

theorem sortByKeyDesc_pairwise (key : α → ℚ) (l : List α) :
    (sortByKeyDesc key l).Pairwise (fun a b => key b ≤ key a) := by
  induction l with
  | nil => simp [sortByKeyDesc]
  | cons x xs ih => exact insertByKey_pairwise key x _ ih

theorem insertByKey_filter_eq (key : α → ℚ) (x : α) (l : List α) (c : ℚ) :
    (insertByKey key x l).filter (fun z => decide (key z = c)) =
      if key x = c then x :: l.filter (fun z => decide (key z = c))
      else l.filter (fun z => decide (key z = c)) := by
  induction l with
  | nil =>
    by_cases hx : key x = c <;> simp [insertByKey, List.filter, hx]
  | cons y ys ih =>
    simp only [insertByKey]
    split_ifs with h1 h2 h3
    · simp [List.filter_cons, h2]
    · simp [List.filter_cons, h2]
    · have hy : ¬ key y = c := fun hy => h1 (le_of_eq (by rw [hy, h3]))
      simp [List.filter_cons, hy, ih, h3]
    · simp [List.filter_cons, ih, h3]

theorem sortByKeyDesc_filter_eq (key : α → ℚ) (l : List α) (c : ℚ) :
    (sortByKeyDesc key l).filter (fun z => decide (key z = c)) =
      l.filter (fun z => decide (key z = c)) := by
  induction l with
  | nil => rfl
  | cons x xs ih =>
    rw [sortByKeyDesc, insertByKey_filter_eq]
    by_cases hx : key x = c <;> simp [List.filter_cons, hx, ih]

/-- The ordering the claim asserts: by descending per-type TOTAL time
(the `total` accumulator, as in the console report at line 302), rather
than the `form_total` the summary-sheet code actually sorts by. -/
def claimed_order (s : FillerState) : List (Str × TypeStats) :=
  sortByKeyDesc (fun p => p.2.total) (real_types s)

def f8a : Flight :=
  { aircraft_type := "SFTY".toList, reg := "N1".toList, total := 10,
    remarks := "safety pilot".toList }

def f8b : Flight :=
  { aircraft_type := "PA28".toList, reg := "N2".toList, total := 5 }

/-- Claim C8 counterexample: after a 10-hour safety-pilot flight on type
SFTY (`total = 10`, `form_total = 0`) and a 5-hour PIC flight on type PA28
(`total = form_total = 5`), the summary sheet lists PA28 before SFTY
(it sorts by `form_total`), while sorting by descending total time would
list SFTY first. -/
theorem C8_counterexample :
    (summary_order (runFiller [f8a, f8b])).map Prod.fst =
      ["PA28".toList, "SFTY".toList] ∧
    (claimed_order (runFiller [f8a, f8b])).map Prod.fst =
      ["SFTY".toList, "PA28".toList] ∧
    summary_order (runFiller [f8a, f8b]) ≠ claimed_order (runFiller [f8a, f8b]) := by
  refine ⟨?_, ?_, ?_⟩ <;>
    simp +decide [runFiller, fillerStep, fillerSafety, fillerPicPlain, fillerG0,
      fillerTSBase, fillerPicG, fillerPicTS, fillerCxList, fillerIsCx, summary_order,
      claimed_order, real_types, sortByKeyDesc, insertByKey, updateD, lookupD,
      f8a, f8b]

/-- Claim C8 amended: the summary ordering sorts the non-simulator,
positive-total types by descending `form_total` (not by descending
`total`), stably, so ties keep first-seen order: it is a permutation of
`real_types` that is pairwise-sorted by descending `form_total` and whose
subsequence at any fixed `form_total` value `c` equals the first-seen-order
subsequence; the written rows are the first 10 of that ordering, and the
truncation warning fires exactly when more than 10 types remain. -/
theorem C8_amended (flights : List Flight) (c : ℚ) :
    (summary_order (runFiller flights)).Pairwise
      (fun a b => b.2.form_total ≤ a.2.form_total) ∧
    (summary_order (runFiller flights)).Perm (real_types (runFiller flights)) ∧
    (summary_order (runFiller flights)).filter
        (fun p => decide (p.2.form_total = c)) =
      (real_types (runFiller flights)).filter
        (fun p => decide (p.2.form_total = c)) ∧
    summary_rows (runFiller flights) = (summary_order (runFiller flights)).take 10 ∧
    (overflow_warn (runFiller flights) = true ↔
      10 < (real_types (runFiller flights)).length) := by
  refine ⟨sortByKeyDesc_pairwise _ _, sortByKeyDesc_perm _ _,
    sortByKeyDesc_filter_eq _ _ _, rfl, ?_⟩
  unfold overflow_warn
  rw [show (summary_order (runFiller flights)).length =
        (real_types (runFiller flights)).length from
      (sortByKeyDesc_perm _ _).length_eq]
  simp

/-! ## Claim C5 -/

theorem fillerStep_ts_mono (s : FillerState) (f : Flight) (k : Str)
    (h0 : 0 ≤ f.night) (h1 : f.night ≤ f.total) :
    (lookupTS s.stats k).day_pic ≤ (lookupTS (fillerStep s f).stats k).day_pic ∧
    (lookupTS s.stats k).day_pic_xc ≤ (lookupTS (fillerStep s f).stats k).day_pic_xc ∧
    (lookupTS s.stats k).day_sic ≤ (lookupTS (fillerStep s f).stats k).day_sic ∧
    (lookupTS s.stats k).day_student ≤ (lookupTS (fillerStep s f).stats k).day_student ∧
    (lookupTS s.stats k).night_pic ≤ (lookupTS (fillerStep s f).stats k).night_pic ∧
    (lookupTS s.stats k).night_pic_xc ≤ (lookupTS (fillerStep s f).stats k).night_pic_xc ∧
    (lookupTS s.stats k).night_sic ≤ (lookupTS (fillerStep s f).stats k).night_sic ∧
    (lookupTS s.stats k).night_student ≤ (lookupTS (fillerStep s f).stats k).night_student ∧
    (lookupTS s.stats k).night_time ≤ (lookupTS (fillerStep s f).stats k).night_time := by
  have hdt : 0 ≤ f.total - f.night := by linarith
  unfold fillerStep
  split_ifs
  all_goals
    simp only [fillerSim, fillerStudent, fillerSafety, fillerSicME, fillerPicPlain,
      fillerSolo, lookupTS, lookupD_updateD]
  all_goals
    first
      | exact ⟨le_refl _, le_refl _, le_refl _, le_refl _, le_refl _, le_refl _,
          le_refl _, le_refl _, le_refl _⟩
      | (by_cases hk : k = normalize_type f.aircraft_type
         · subst hk
           refine ⟨?_, ?_, ?_, ?_, ?_, ?_, ?_, ?_, ?_⟩ <;>
             simp only [if_pos rfl] <;>
             (try simp only [fillerTSBase, fillerPicTS]) <;>
             (try split_ifs) <;> (try simp) <;> linarith
         · simp only [if_neg hk]
           exact ⟨le_refl _, le_refl _, le_refl _, le_refl _, le_refl _, le_refl _,
             le_refl _, le_refl _, le_refl _⟩)

theorem fillerStep_grand_night_mono (s : FillerState) (f : Flight)
    (h0 : 0 ≤ f.night) (_h1 : f.night ≤ f.total) :
    s.grand.night ≤ (fillerStep s f).grand.night ∧
    s.grand.night_pic ≤ (fillerStep s f).grand.night_pic ∧
    s.grand.night_pic_xc ≤ (fillerStep s f).grand.night_pic_xc ∧
    s.grand.night_sic ≤ (fillerStep s f).grand.night_sic ∧
    s.grand.night_student ≤ (fillerStep s f).grand.night_student := by
  unfold fillerStep
  split_ifs
  all_goals
    refine ⟨?_, ?_, ?_, ?_, ?_⟩ <;>
      (try simp only [fillerSim, fillerStudent, fillerSafety, fillerSicME,
        fillerPicPlain, fillerSolo, fillerG0, fillerPicG]) <;>
      (try split_ifs) <;> (try simp) <;> linarith

theorem fillerStudent_ts_exact (s : FillerState) (f : Flight)
    (hne : f.aircraft_type.isEmpty = false)
    (hns : is_simulator f.aircraft_type f.reg = false)
    (hI : hasInstructorB f = true) :
    (lookupTS (fillerStep s f).stats (normalize_type f.aircraft_type)).day_student =
      (lookupTS s.stats (normalize_type f.aircraft_type)).day_student +
        (f.total - f.night) ∧
    (lookupTS (fillerStep s f).stats (normalize_type f.aircraft_type)).night_student =
      (lookupTS s.stats (normalize_type f.aircraft_type)).night_student + f.night := by
  have hstep : fillerStep s f = fillerStudent s f := by
    simp [fillerStep, hne, hns, hI]
  rw [hstep]
  constructor <;> simp [fillerStudent, lookupTS, lookupD_updateD, fillerTSBase]

/-- Claim C5: the day/night split copies `night_time` verbatim and sets
`day_time = total_time − night_time` (shown exactly on the Student branch),
and — for flight records satisfying the data-model invariants
`0 ≤ night_time ≤ total_time` — no step of the aggregator ever adds a
negative day or night amount to any accumulator bucket: every per-type
day/night bucket and every grand night bucket is monotonically
nondecreasing. -/
theorem C5_day_night (s : FillerState) (f : Flight) (k : Str)
    (h0 : 0 ≤ f.night) (h1 : f.night ≤ f.total) :
    ((lookupTS s.stats k).day_pic ≤ (lookupTS (fillerStep s f).stats k).day_pic ∧
     (lookupTS s.stats k).day_pic_xc ≤ (lookupTS (fillerStep s f).stats k).day_pic_xc ∧
     (lookupTS s.stats k).day_sic ≤ (lookupTS (fillerStep s f).stats k).day_sic ∧
     (lookupTS s.stats k).day_student ≤ (lookupTS (fillerStep s f).stats k).day_student ∧
     (lookupTS s.stats k).night_pic ≤ (lookupTS (fillerStep s f).stats k).night_pic ∧
     (lookupTS s.stats k).night_pic_xc ≤ (lookupTS (fillerStep s f).stats k).night_pic_xc ∧
     (lookupTS s.stats k).night_sic ≤ (lookupTS (fillerStep s f).stats k).night_sic ∧
     (lookupTS s.stats k).night_student ≤ (lookupTS (fillerStep s f).stats k).night_student ∧
     (lookupTS s.stats k).night_time ≤ (lookupTS (fillerStep s f).stats k).night_time) ∧
    (s.grand.night ≤ (fillerStep s f).grand.night ∧
     s.grand.night_pic ≤ (fillerStep s f).grand.night_pic ∧
     s.grand.night_pic_xc ≤ (fillerStep s f).grand.night_pic_xc ∧
     s.grand.night_sic ≤ (fillerStep s f).grand.night_sic ∧
     s.grand.night_student ≤ (fillerStep s f).grand.night_student) ∧
    (hasInstructorB f = true → f.aircraft_type.isEmpty = false →
      is_simulator f.aircraft_type f.reg = false →
      (lookupTS (fillerStep s f).stats (normalize_type f.aircraft_type)).day_student =
        (lookupTS s.stats (normalize_type f.aircraft_type)).day_student +
          (f.total - f.night) ∧
      (lookupTS (fillerStep s f).stats (normalize_type f.aircraft_type)).night_student =
        (lookupTS s.stats (normalize_type f.aircraft_type)).night_student + f.night) :=
  ⟨fillerStep_ts_mono s f k h0 h1, fillerStep_grand_night_mono s f h0 h1,
   fun hI hne hns => fillerStudent_ts_exact s f hne hns hI⟩

def fC5 : Flight :=
  { aircraft_type := "C172".toList, reg := "N5".toList, total := 3, night := 1,
    instructor := "Jane Doe".toList }

theorem C5_day_night_witness :
    (0 : ℚ) ≤ fC5.night ∧ fC5.night ≤ fC5.total ∧
    (lookupTS (fillerStep {} fC5).stats (normalize_type fC5.aircraft_type)).day_student =
      (lookupTS ({} : FillerState).stats (normalize_type fC5.aircraft_type)).day_student +
        (fC5.total - fC5.night) := by
  refine ⟨by decide, by decide, ?_⟩
  exact ((C5_day_night {} fC5 "C172".toList (by decide) (by decide)).2.2
    (by decide) (by decide) (by decide)).1

/-! ## Claim C6 -/

theorem fillerStep_xc_inv (s : FillerState) (f : Flight) (k : Str)
    (h0 : 0 ≤ f.night) (h1 : f.night ≤ f.total)
    (hk : (lookupTS s.stats k).day_pic_xc ≤ (lookupTS s.stats k).day_pic ∧
          (lookupTS s.stats k).night_pic_xc ≤ (lookupTS s.stats k).night_pic) :
    (lookupTS (fillerStep s f).stats k).day_pic_xc ≤
      (lookupTS (fillerStep s f).stats k).day_pic ∧
    (lookupTS (fillerStep s f).stats k).night_pic_xc ≤
      (lookupTS (fillerStep s f).stats k).night_pic := by
  have hdt : 0 ≤ f.total - f.night := by linarith
  simp only [lookupTS] at hk
  unfold fillerStep
  split_ifs
  all_goals
    simp only [fillerSim, fillerStudent, fillerSafety, fillerSicME, fillerPicPlain,
      fillerSolo, lookupTS, lookupD_updateD]
  all_goals
    first
      | exact hk
      | (by_cases hq : k = normalize_type f.aircraft_type
         · subst hq
           refine ⟨?_, ?_⟩ <;>
             simp only [if_pos rfl] <;>
             (try simp only [fillerTSBase, fillerPicTS]) <;>
             (try split_ifs) <;> (try simp) <;> (try simp at hk) <;>
             linarith [hk.1, hk.2]
         · simp only [if_neg hq]
           exact hk)

/-- Claim C6: when every flight satisfies the data-model invariants
`0 ≤ night_time ≤ total_time`, every per-type accumulator satisfies
`day_pic_xc ≤ day_pic` and `night_pic_xc ≤ night_pic` after aggregation: a
flight's cross-country sub-bucket is incremented only in the branches that
also increment the base PIC bucket by at least as much. -/
theorem C6_xc_subset (flights : List Flight) (k : Str)
    (h : ∀ f ∈ flights, 0 ≤ f.night ∧ f.night ≤ f.total) :
    (lookupTS (runFiller flights).stats k).day_pic_xc ≤
      (lookupTS (runFiller flights).stats k).day_pic ∧
    (lookupTS (runFiller flights).stats k).night_pic_xc ≤
      (lookupTS (runFiller flights).stats k).night_pic := by
  suffices hgen : ∀ (l : List Flight), (∀ f ∈ l, 0 ≤ f.night ∧ f.night ≤ f.total) →
      ∀ s : FillerState,
      (∀ k2, (lookupTS s.stats k2).day_pic_xc ≤ (lookupTS s.stats k2).day_pic ∧
             (lookupTS s.stats k2).night_pic_xc ≤ (lookupTS s.stats k2).night_pic) →
      ∀ k2, (lookupTS (List.foldl fillerStep s l).stats k2).day_pic_xc ≤
              (lookupTS (List.foldl fillerStep s l).stats k2).day_pic ∧
            (lookupTS (List.foldl fillerStep s l).stats k2).night_pic_xc ≤
              (lookupTS (List.foldl fillerStep s l).stats k2).night_pic by
    exact hgen flights h {} (fun k2 => by simp [lookupTS, lookupD]) k
  intro l
  induction l with
  | nil => intro _ s hs k2; exact hs k2
  | cons f fs ih =>
    intro hl s hs k2
    simp only [List.foldl_cons]
    refine ih (fun g hg => hl g (List.mem_cons_of_mem f hg)) (fillerStep s f)
      (fun k3 => ?_) k2
    have hf := hl f (List.mem_cons_self f fs)
    exact fillerStep_xc_inv s f k3 hf.1 hf.2 (hs k3)

def fC6 : Flight :=
  { aircraft_type := "PA28".toList, reg := "N6".toList, total := 2, night := 1,
    distance := 100 }

theorem C6_xc_subset_witness :
    (∀ f ∈ [fC6], 0 ≤ f.night ∧ f.night ≤ f.total) ∧
    (lookupTS (runFiller [fC6]).stats "PA28".toList).day_pic_xc ≤
      (lookupTS (runFiller [fC6]).stats "PA28".toList).day_pic := by
  refine ⟨by decide, ?_⟩
  exact (C6_xc_subset [fC6] "PA28".toList (by decide)).1

/-! ## Claim C10 -/

theorem aSim_roles (s : AState) (f : Flight) :
    (aSim s f).grand.student_time = s.grand.student_time ∧
    (aSim s f).grand.sic_time = s.grand.sic_time ∧
    (aSim s f).grand.pic_time = s.grand.pic_time :=
  ⟨rfl, rfl, rfl⟩

theorem aStudent_roles (s : AState) (f : Flight) :
    (aStudent s f).grand.student_time = s.grand.student_time + f.total ∧
    (aStudent s f).grand.sic_time = s.grand.sic_time ∧
    (aStudent s f).grand.pic_time = s.grand.pic_time :=
  ⟨rfl, rfl, rfl⟩

theorem aSafetySE_roles (s : AState) (f : Flight) :
    (aSafetySE s f).grand.student_time = s.grand.student_time ∧
    (aSafetySE s f).grand.sic_time = s.grand.sic_time ∧
    (aSafetySE s f).grand.pic_time = s.grand.pic_time :=
  ⟨rfl, rfl, rfl⟩

theorem aInstructor_roles (s : AState) (f : Flight) :
    (aInstructor s f).grand.student_time = s.grand.student_time ∧
    (aInstructor s f).grand.sic_time = s.grand.sic_time ∧
    (aInstructor s f).grand.pic_time = s.grand.pic_time + f.total := by
  simp only [aInstructor, aNightPicG, aG0]
  split_ifs <;> exact ⟨rfl, rfl, rfl⟩

theorem aSolo_roles (s : AState) (f : Flight) :
    (aSolo s f).grand.student_time = s.grand.student_time ∧
    (aSolo s f).grand.sic_time = s.grand.sic_time ∧
    (aSolo s f).grand.pic_time = s.grand.pic_time + f.total := by
  simp only [aSolo, aNightPicG, aG0]
  split_ifs <;> exact ⟨rfl, rfl, rfl⟩

theorem aSicME_roles (s : AState) (f : Flight) :
    (aSicME s f).grand.student_time = s.grand.student_time ∧
    (aSicME s f).grand.sic_time = s.grand.sic_time + f.total ∧
    (aSicME s f).grand.pic_time = s.grand.pic_time :=
  ⟨rfl, rfl, rfl⟩

theorem aPicPlain_roles (s : AState) (f : Flight) :
    (aPicPlain s f).grand.student_time = s.grand.student_time ∧
    (aPicPlain s f).grand.sic_time = s.grand.sic_time ∧
    (aPicPlain s f).grand.pic_time = s.grand.pic_time + f.total := by
  simp only [aPicPlain, aNightPicG, aG0]
  split_ifs <;> exact ⟨rfl, rfl, rfl⟩

theorem aSafetySIC_roles (s : AState) (f : Flight) :
    (aSafetySIC s f).grand.student_time = s.grand.student_time ∧
    (aSafetySIC s f).grand.sic_time = s.grand.sic_time + f.total ∧
    (aSafetySIC s f).grand.pic_time = s.grand.pic_time :=
  ⟨rfl, rfl, rfl⟩

theorem aNone_roles (s : AState) (f : Flight) :
    (aNone s f).grand.student_time = s.grand.student_time ∧
    (aNone s f).grand.sic_time = s.grand.sic_time ∧
    (aNone s f).grand.pic_time = s.grand.pic_time :=
  ⟨rfl, rfl, rfl⟩

/-- The role the analyzer's decision chain credits the flight's total time
to (`none` for the excluded single-engine safety-pilot branch and for the
fall-through with nonpositive total), extracted from `analyzerStep` the way
`classify_role` is extracted from `categorize_flights`. -/
def analyzer_role (f : Flight) : Option Role :=
  if hasInstructorB f then some Role.student
  else if strContains (pyLower f.remarks) safetyMarker &&
          is_single_engine f.aircraft_type then none
  else if decide (f.dual_given > 0) then some Role.pic
  else if decide (f.solo > 0) then some Role.pic
  else if (decide (f.sic > 0) && !hasInstructorB f) &&
          !is_single_engine f.aircraft_type then some Role.sic
  else if decide (f.pic > 0) then some Role.pic
  else if strContains (pyLower f.remarks) safetyMarker then some Role.sic
  else if decide (f.total > 0) then some Role.pic
  else none

theorem analyzerStep_role_deltas (s : AState) (f : Flight)
    (hne : f.aircraft_type.isEmpty = false)
    (hns : is_simulator f.aircraft_type f.reg = false) :
    (analyzerStep s f).grand.student_time =
      s.grand.student_time +
        (if analyzer_role f = some Role.student then f.total else 0) ∧
    (analyzerStep s f).grand.sic_time =
      s.grand.sic_time + (if analyzer_role f = some Role.sic then f.total else 0) ∧
    (analyzerStep s f).grand.pic_time =
      s.grand.pic_time + (if analyzer_role f = some Role.pic then f.total else 0) := by
  have h1 := aStudent_roles s f
  have h2 := aSafetySE_roles s f
  have h3 := aInstructor_roles s f
  have h4 := aSolo_roles s f
  have h5 := aSicME_roles s f
  have h6 := aPicPlain_roles s f
  have h7 := aSafetySIC_roles s f
  have h8 := aNone_roles s f
  simp only [analyzerStep, analyzer_role, hne, hns, Bool.false_eq_true, if_false]
  split_ifs <;>
    simp [h1.1, h1.2.1, h1.2.2, h2.1, h2.2.1, h2.2.2, h3.1, h3.2.1, h3.2.2,
      h4.1, h4.2.1, h4.2.2, h5.1, h5.2.1, h5.2.2, h6.1, h6.2.1, h6.2.2,
      h7.1, h7.2.1, h7.2.2, h8.1, h8.2.1, h8.2.2] <;>
    simp_all

theorem role_student_match (f : Flight) :
    classify_role f = Role.student ↔ analyzer_role f = some Role.student := by
  unfold classify_role analyzer_role
  split_ifs <;> simp

theorem role_picsic_match (f : Flight) (h : 0 ≤ f.total) :
    (if analyzer_role f = some Role.pic then f.total else 0) +
      (if analyzer_role f = some Role.sic then f.total else 0) =
    (if classify_role f = Role.pic then f.total else 0) +
      (if classify_role f = Role.sic then f.total else 0) := by
  unfold classify_role analyzer_role
  split_ifs <;> simp_all <;> linarith

theorem stepPair_deltas (sf : FillerState) (sa : AState) (f : Flight)
    (h : 0 ≤ f.total) :
    (analyzerStep sa f).grand.student_time - sa.grand.student_time =
      (fillerStep sf f).grand.student - sf.grand.student ∧
    ((analyzerStep sa f).grand.pic_time + (analyzerStep sa f).grand.sic_time) -
        (sa.grand.pic_time + sa.grand.sic_time) =
      ((fillerStep sf f).grand.pic + (fillerStep sf f).grand.sic) -
        (sf.grand.pic + sf.grand.sic) := by
  by_cases hne : f.aircraft_type.isEmpty = true
  · constructor <;> simp [fillerStep, analyzerStep, hne]
  · have hne' : f.aircraft_type.isEmpty = false := by
      cases hx : f.aircraft_type.isEmpty
      · rfl
      · exact absurd hx hne
    by_cases hns : is_simulator f.aircraft_type f.reg = true
    · have hf : fillerStep sf f = fillerSim sf f := by
        simp [fillerStep, hne', hns]
      have ha : analyzerStep sa f = aSim sa f := by
        simp [analyzerStep, hne', hns]
      have h1 := fillerSim_roles sf f
      have h2 := aSim_roles sa f
      rw [hf, ha]
      constructor
      · rw [h1.2.2.1, h2.1]; ring
      · rw [h1.1, h1.2.1, h2.2.1, h2.2.2]; ring
    · have hns' : is_simulator f.aircraft_type f.reg = false := by
        cases hx : is_simulator f.aircraft_type f.reg
        · rfl
        · exact absurd hx hns
      have hF := fillerStep_role_deltas sf f hne' hns'
      have hA := analyzerStep_role_deltas sa f hne' hns'
      constructor
      · rw [hF.1, hA.1]
        simp only [role_student_match]
        ring
      · rw [hF.2.1, hF.2.2.1, hA.2.1, hA.2.2]
        have hp := role_picsic_match f h
        linarith [hp]

def fC10 : Flight :=
  { aircraft_type := "PA44".toList, reg := "N10".toList, total := 2, sic := 1,
    solo := 1 }

/-- Claim C10 counterexample: a multi-engine flight with both `sic > 0` and
`solo > 0` and no instructor is credited SIC by `categorize_flights` (its
SIC test precedes its solo test) but PIC by `analyze_caai` (its solo test
precedes its SIC test), so the two implementations' grand PIC and SIC
totals differ on a one-flight input. -/
theorem C10_counterexample :
    (runFiller [fC10]).grand.sic = 2 ∧ (runFiller [fC10]).grand.pic = 0 ∧
    (runAnalyzer [fC10]).grand.sic_time = 0 ∧
    (runAnalyzer [fC10]).grand.pic_time = 2 ∧
    (runFiller [fC10]).grand.pic ≠ (runAnalyzer [fC10]).grand.pic_time := by
  refine ⟨?_, ?_, ?_, ?_, ?_⟩ <;>
    simp +decide [runFiller, runAnalyzer, fillerStep, analyzerStep, fillerSicME,
      aSolo, fillerG0, aG0, aNightPicG, fillerTSBase, aTSBase, aPre, fillerCxList,
      fillerIsCx, fC10]

/-- Claim C10 amended: the two classification/aggregation passes do NOT
compute equal grand PIC and SIC totals (their role chains order the solo
and SIC tests differently and treat instructor-given time and multi-engine
safety-pilot remarks differently); what does hold for every input sequence
of records with nonnegative total time is that their Student totals agree
and their summed PIC+SIC totals agree (hence also PIC+SIC+Student and the
derived totals that only use these sums). -/
theorem C10_amended (flights : List Flight)
    (h : ∀ f ∈ flights, 0 ≤ f.total) :
    (runAnalyzer flights).grand.student_time = (runFiller flights).grand.student ∧
    (runAnalyzer flights).grand.pic_time + (runAnalyzer flights).grand.sic_time =
      (runFiller flights).grand.pic + (runFiller flights).grand.sic := by
  suffices hgen : ∀ (l : List Flight), (∀ f ∈ l, 0 ≤ f.total) →
      ∀ (sf : FillerState) (sa : AState),
      (List.foldl analyzerStep sa l).grand.student_time - sa.grand.student_time =
        (List.foldl fillerStep sf l).grand.student - sf.grand.student ∧
      ((List.foldl analyzerStep sa l).grand.pic_time +
          (List.foldl analyzerStep sa l).grand.sic_time) -
          (sa.grand.pic_time + sa.grand.sic_time) =
        ((List.foldl fillerStep sf l).grand.pic +
          (List.foldl fillerStep sf l).grand.sic) -
          (sf.grand.pic + sf.grand.sic) by
    have h0 := hgen flights h {} {}
    unfold runFiller runAnalyzer
    simp only [show ({} : AState).grand.student_time = 0 from rfl,
      show ({} : AState).grand.pic_time = 0 from rfl,
      show ({} : AState).grand.sic_time = 0 from rfl,
      show ({} : FillerState).grand.student = 0 from rfl,
      show ({} : FillerState).grand.pic = 0 from rfl,
      show ({} : FillerState).grand.sic = 0 from rfl] at h0
    constructor
    · linarith [h0.1]
    · linarith [h0.2]
  intro l
  induction l with
  | nil =>
    intro _ sf sa
    constructor <;> simp
  | cons f fs ih =>
    intro hl sf sa
    simp only [List.foldl_cons]
    have hstep := stepPair_deltas sf sa f (hl f (List.mem_cons_self f fs))
    have hrest := ih (fun g hg => hl g (List.mem_cons_of_mem f hg))
      (fillerStep sf f) (analyzerStep sa f)
    exact ⟨by linarith [hstep.1, hrest.1], by linarith [hstep.2, hrest.2]⟩

theorem C10_amended_witness :
    (∀ f ∈ [fC10], (0 : ℚ) ≤ f.total) ∧
    (runAnalyzer [fC10]).grand.student_time = (runFiller [fC10]).grand.student := by
  exact ⟨by decide, (C10_amended [fC10] (by decide)).1⟩
